import Mathlib

/-!
# `internal/clients/launchdarkly.go`: the Terraform setup builder

A shallow embedding of `TerraformSetupBuilder` and of the values it handles.

The function is a linear pipeline over collaborators that live outside the
file (the cluster API client, the usage tracker, the credential extractor,
`json.Unmarshal`, the vendored LaunchDarkly provider).  Each collaborator is a
field of `Env`; the cluster is explicit state of type `σ`, threaded through the
calls, and every collaborator call is recorded in the list `Outcome.calls`, in
the order the source performs it.

Type parameters used throughout:
* `σ` the state of the cluster behind `client.Client`,
* `κ` the `context.Context`,
* `μ` the SDK provider's `Meta` handle,
* `φ` the plugin-framework provider handle,
* `δ` the SDK's `diag.Diagnostics`.
-/

namespace clients

/-! ## Constants (lines 24-40) -/

/-- Provider version for Plugin Framework. -/
def providerVersion : String := "2.25.3"

def errNotLegacyManaged : String := "managed resource does not implement LegacyManaged"
def errNoProviderConfig : String := "no providerConfigRef provided"
def errGetProviderConfig : String := "cannot get referenced ProviderConfig"
def errTrackUsage : String := "cannot track ProviderConfig usage"
def errExtractCredentials : String := "cannot extract credentials"
def errUnmarshalCredentials : String := "cannot unmarshal launchdarkly credentials as JSON"
def errConfigureSDKProvider : String := "cannot configure LaunchDarkly SDK provider"

def keyAccessToken : String := "access_token"
def keyAPIHost : String := "api_host"
def keyOAuthToken : String := "oauth_token"

/-! ## Errors (`github.com/pkg/errors`) -/

/-- A Go `error` value: either a plain message (`errors.New`, `errors.Errorf`, or
whatever a collaborator returned) or a cause wrapped with a message
(`errors.Wrap`). -/
inductive Error where
  | fundamental (msg : String)
  | withMessage (cause : Error) (msg : String)
  deriving DecidableEq, Repr

namespace errors

/-- The function `errors.New(msg)`. -/
def New (msg : String) : Error := Error.fundamental msg

/-- The function `errors.Errorf(format, args...)`, applied to the formatted text. -/
def Errorf (formatted : String) : Error := Error.fundamental formatted

/-- The function `errors.Wrap(err, msg)` for a non-nil `err`. -/
def Wrap (err : Error) (msg : String) : Error := Error.withMessage err msg

end errors

/-- The text of `err.Error()`: a wrapped error prints its message, a colon and a
space, then the text of its cause. -/
def Error.message : Error → String
  | Error.fundamental msg => msg
  | Error.withMessage cause msg => msg ++ ": " ++ cause.message

/-! ## Go maps with string keys -/

/-- A Go `map[string]β`, kept as an association list; only `get` observes it. -/
structure GoMap (β : Type) where
  entries : List (String × β)
  deriving DecidableEq, Repr

namespace GoMap

variable {β : Type}

/-- The map literal `map[string]β{}`. -/
def empty : GoMap β := ⟨[]⟩

/-- The lookup `v, ok := m[k]`: `some v` when `ok`, `none` otherwise. -/
def get (m : GoMap β) (k : String) : Option β := List.lookup k m.entries

/-- Replace the value at `k`, or add the pair at the end when `k` is new. -/
def setEntries : List (String × β) → String → β → List (String × β)
  | [], k, v => [(k, v)]
  | (k', v') :: rest, k, v =>
    if k' = k then (k, v) :: rest else (k', v') :: setEntries rest k v

/-- The assignment `m[k] = v`. -/
def set (m : GoMap β) (k : String) (v : β) : GoMap β := ⟨setEntries m.entries k v⟩

end GoMap

/-! ## Managed resources and the ProviderConfig -/

/-- The type `xpv1.Reference`, of which the code reads `Name`. -/
structure Reference where
  Name : String
  deriving DecidableEq, Repr

/-- A managed resource that implements `resource.LegacyManaged`. -/
structure LegacyManaged where
  name : String
  providerConfigReference : Option Reference
  deriving DecidableEq, Repr

/-- The method `lm.GetProviderConfigReference()`; `none` is the nil pointer. -/
def LegacyManaged.GetProviderConfigReference (lm : LegacyManaged) : Option Reference :=
  lm.providerConfigReference

/-- A `resource.Managed`: it either implements `resource.LegacyManaged` or not. -/
inductive Managed where
  | legacy (lm : LegacyManaged)
  | modern (name : String)
  deriving DecidableEq, Repr

/-- The type assertion `lm, ok := mg.(resource.LegacyManaged)`. -/
def Managed.asLegacyManaged : Managed → Option LegacyManaged
  | Managed.legacy lm => some lm
  | Managed.modern _ => none

/-- The type `types.NamespacedName`. -/
structure NamespacedName where
  Namespace : String := ""
  Name : String
  deriving DecidableEq, Repr

/-- Modelled from the spec: the credential selectors of a ProviderConfig
(`xpv1.CommonCredentialSelectors`, embedded by the `apis/v1beta1` types, whose
declaration is not part of the sources); the spec calls them the declared
"selectors" handed to the credential extractor. -/
structure CommonCredentialSelectors where
  Fs : Option String := none
  Env : Option String := none
  SecretRef : Option NamespacedName := none
  deriving DecidableEq, Repr

/-- Modelled from the spec: `pc.Spec.Credentials` of `apis/v1beta1` (declaration
not part of the sources): a credentials source kind and its selectors. -/
structure ProviderCredentials where
  Source : String
  CommonCredentialSelectors : CommonCredentialSelectors := {}
  deriving DecidableEq, Repr

/-- Modelled from the spec: `pc.Spec` of `apis/v1beta1`. -/
structure ProviderConfigSpec where
  Credentials : ProviderCredentials
  deriving DecidableEq, Repr

/-- Modelled from the spec: the `v1beta1.ProviderConfig` record, "a cluster-scoped
record holding a credentials-source descriptor"; its declaration is not part of
the sources. -/
structure ProviderConfig where
  Spec : ProviderConfigSpec
  deriving DecidableEq, Repr

/-! ## The result value and the collaborators -/

/-- The fields of `terraform.Setup` that the builder assigns.  `none` is the Go
zero value of the field (nil map, nil interface). -/
structure Setup (μ φ : Type) where
  Configuration : Option (GoMap String) := none
  Meta : Option μ := none
  FrameworkProvider : Option φ := none

/-- The zero value `terraform.Setup{}`. -/
def Setup.zero {μ φ : Type} : Setup μ φ := {}

/-- A call made on a collaborator. -/
inductive Call where
  | Get
  | Track
  | Extract
  | Unmarshal
  | Configure
  | Meta
  | NewPluginProvider
  deriving DecidableEq, Repr

/-- The payload `[]byte` returned by the credential extractor. -/
abbrev Bytes := List UInt8

/-- The collaborators of the builder.

* `Get ctx c key` is `c.Get(ctx, key, pc)`: the ProviderConfig read, or an error.
* `Track ctx c lm` is `NewLegacyProviderConfigUsageTracker(c, ..).Track(ctx, lm)`:
  the error (if any) and the cluster state the tracker leaves behind.
* `CommonCredentialExtractor ctx source c selectors` is the function of the same
  name: the credential bytes, or an error.
* `Unmarshal data` is `json.Unmarshal(data, &creds)` on a fresh
  `map[string]string`: the decoded map, or the decode error.
* `Configure ctx cfg` is `Provider().Configure(ctx, NewResourceConfigRaw(cfg))` on
  a fresh SDK provider: the diagnostics, and the handle that the provider's
  `Meta()` returns afterwards.
* `HasError` is `diags.HasError()`, and `Sprint diags` the text that the verb
  `%v` prints for `diags`.
* `NewPluginProvider version` is `ldProvider.NewPluginProvider(version)()`. -/
structure Env (σ κ μ φ δ : Type) where
  Get : κ → σ → NamespacedName → Except Error ProviderConfig
  Track : κ → σ → LegacyManaged → Option Error × σ
  CommonCredentialExtractor : κ → String → σ → CommonCredentialSelectors → Except Error Bytes
  Unmarshal : Bytes → Except Error (GoMap String)
  Configure : κ → GoMap String → δ × μ
  HasError : δ → Bool
  Sprint : δ → String
  NewPluginProvider : String → φ

/-- What one call of the setup function leaves behind: the two returned values,
the cluster state, and the collaborator calls it made, in order. -/
structure Outcome (σ μ φ : Type) where
  ps : Setup μ φ
  err : Option Error
  cluster : σ
  calls : List Call

/-! ## The builder (lines 45-101) -/

/-- Lines 78-87: build provider configuration from credentials. -/
def buildConfiguration (creds : GoMap String) : GoMap String :=
  let cfg : GoMap String := GoMap.empty
  let cfg := match creds.get keyAccessToken with
    | some v => cfg.set keyAccessToken v
    | none => cfg
  let cfg := match creds.get keyAPIHost with
    | some v => cfg.set keyAPIHost v
    | none => cfg
  let cfg := match creds.get keyOAuthToken with
    | some v => cfg.set keyOAuthToken v
    | none => cfg
  cfg

/-- The function returned by `TerraformSetupBuilder()`, run with client state `c`
on the managed resource `mg`. -/
def TerraformSetupBuilder {σ κ μ φ δ : Type} (env : Env σ κ μ φ δ) (ctx : κ) (c : σ)
    (mg : Managed) : Outcome σ μ φ :=
  let ps : Setup μ φ := {}
  match mg.asLegacyManaged with
  | none => ⟨ps, some (errors.New errNotLegacyManaged), c, []⟩
  | some lm =>
    match lm.GetProviderConfigReference with
    | none => ⟨ps, some (errors.New errNoProviderConfig), c, []⟩
    | some configRef =>
      match env.Get ctx c { Name := configRef.Name } with
      | Except.error err =>
        ⟨ps, some (errors.Wrap err errGetProviderConfig), c, [Call.Get]⟩
      | Except.ok pc =>
        match env.Track ctx c lm with
        | (some err, c1) =>
          ⟨ps, some (errors.Wrap err errTrackUsage), c1, [Call.Get, Call.Track]⟩
        | (none, c1) =>
          match env.CommonCredentialExtractor ctx pc.Spec.Credentials.Source c1
              pc.Spec.Credentials.CommonCredentialSelectors with
          | Except.error err =>
            ⟨ps, some (errors.Wrap err errExtractCredentials), c1,
              [Call.Get, Call.Track, Call.Extract]⟩
          | Except.ok data =>
            match env.Unmarshal data with
            | Except.error err =>
              ⟨ps, some (errors.Wrap err errUnmarshalCredentials), c1,
                [Call.Get, Call.Track, Call.Extract, Call.Unmarshal]⟩
            | Except.ok creds =>
              let cfg := buildConfiguration creds
              let ps : Setup μ φ := { ps with Configuration := some cfg }
              let (diags, sdkMeta) := env.Configure ctx cfg
              if env.HasError diags then
                ⟨ps, some (errors.Wrap (errors.Errorf (env.Sprint diags))
                    errConfigureSDKProvider), c1,
                  [Call.Get, Call.Track, Call.Extract, Call.Unmarshal, Call.Configure]⟩
              else
                let ps : Setup μ φ := { ps with Meta := some sdkMeta }
                let ps : Setup μ φ :=
                  { ps with FrameworkProvider := some (env.NewPluginProvider providerVersion) }
                ⟨ps, none, c1,
                  [Call.Get, Call.Track, Call.Extract, Call.Unmarshal, Call.Configure,
                    Call.Meta, Call.NewPluginProvider]⟩

/-- The order in which a call that succeeds invokes the collaborators. -/
def pipeline : List Call :=
  [Call.Get, Call.Track, Call.Extract, Call.Unmarshal, Call.Configure, Call.Meta,
    Call.NewPluginProvider]

/-! ## Progress predicates

How far a call gets is a property of the input and of the collaborators'
answers; the predicates below name the answers that let steps 1-3, 1-4, 1-5 and
1-6 of the pipeline succeed. -/

section Progress

variable {σ κ μ φ δ : Type}

/-- Steps 1-3 succeed: `mg` is the legacy-managed `lm`, it carries a provider-config
reference, and `Get` of the ProviderConfig named by it returns `pc`. -/
def Fetches (env : Env σ κ μ φ δ) (ctx : κ) (c : σ) (mg : Managed) (lm : LegacyManaged)
    (pc : ProviderConfig) : Prop :=
  mg.asLegacyManaged = some lm ∧
    ∃ configRef, lm.GetProviderConfigReference = some configRef ∧
      env.Get ctx c { Name := configRef.Name } = Except.ok pc

/-- Steps 1-4 succeed: as `Fetches`, and `Track` reports no error and leaves the
cluster in state `c1`. -/
def Tracks (env : Env σ κ μ φ δ) (ctx : κ) (c : σ) (mg : Managed) (pc : ProviderConfig)
    (c1 : σ) : Prop :=
  ∃ lm, Fetches env ctx c mg lm pc ∧ env.Track ctx c lm = (none, c1)

/-- Steps 1-5 succeed: as `Tracks`, and the credential extractor returns `data`. -/
def Extracts (env : Env σ κ μ φ δ) (ctx : κ) (c : σ) (mg : Managed) (c1 : σ)
    (data : Bytes) : Prop :=
  ∃ pc, Tracks env ctx c mg pc c1 ∧
    env.CommonCredentialExtractor ctx pc.Spec.Credentials.Source c1
      pc.Spec.Credentials.CommonCredentialSelectors = Except.ok data

/-- Steps 1-6 succeed: as `Extracts`, and the bytes decode to the map `creds`. -/
def Decodes (env : Env σ κ μ φ δ) (ctx : κ) (c : σ) (mg : Managed) (c1 : σ)
    (creds : GoMap String) : Prop :=
  ∃ data, Extracts env ctx c mg c1 data ∧ env.Unmarshal data = Except.ok creds

end Progress

/-! ## A sample environment

A small cluster used to evaluate the builder on concrete inputs.  Its state is
the list of resources recorded as users of a ProviderConfig.  The cluster holds
one ProviderConfig, `default`, whose credentials come from a secret.  The answers
of the tracker, the extractor and the decoder are parameters; the SDK provider
reports an error when the configuration carries neither token. -/

/-- The ProviderConfig `default` of the sample cluster. -/
def sampleProviderConfig : ProviderConfig :=
  { Spec :=
      { Credentials :=
          { Source := "Secret"
            CommonCredentialSelectors :=
              { SecretRef := some { Namespace := "crossplane-system", Name := "ld-creds" } } } } }

/-- The sample environment. -/
def sampleEnv (tracked : Option Error) (extracted : Except Error Bytes)
    (decoded : Except Error (GoMap String)) :
    Env (List String) Unit String String (List String) where
  Get := fun _ _ key =>
    if key.Name = "default" ∧ key.Namespace = "" then Except.ok sampleProviderConfig
    else Except.error (Error.fundamental "not found")
  Track := fun _ c lm => (tracked, c ++ [lm.name])
  CommonCredentialExtractor := fun _ _ _ _ => extracted
  Unmarshal := fun _ => decoded
  Configure := fun _ cfg =>
    match cfg.get keyAccessToken, cfg.get keyOAuthToken with
    | none, none => (["either access_token or oauth_token must be specified"], "")
    | some tok, _ => ([], "client:" ++ tok)
    | none, some tok => ([], "client:" ++ tok)
  HasError := fun diags => !diags.isEmpty
  Sprint := fun diags => toString diags
  NewPluginProvider := fun version => "framework:" ++ version

/-- A legacy-managed resource that refers to the ProviderConfig `default`. -/
def sampleManaged : Managed :=
  Managed.legacy { name := "flag-a", providerConfigReference := some { Name := "default" } }

/-- The credentials of the worked example: two recognised keys and a stray one. -/
def sampleCreds : GoMap String :=
  ⟨[("access_token", "tok"), ("api_host", "https://h"), ("unused", "x")]⟩

/-- The bytes of an ASCII text, as the credential extractor would return them. -/
def asciiBytes (text : String) : Bytes := text.toList.map (fun ch => UInt8.ofNat ch.toNat)

/-- The credential payload of the worked example. -/
def sampleData : Bytes :=
  asciiBytes "\x7b\"access_token\":\"tok\",\"api_host\":\"https://h\",\"unused\":\"x\"\x7d"

/-- A payload that is no JSON at all. -/
def malformedData : Bytes := asciiBytes "not json"

/-- Credentials that name a host and no token. -/
def hostOnlyCreds : GoMap String := ⟨[("api_host", "https://h")]⟩

/-- A resource that does not implement `resource.LegacyManaged`. -/
def modernManaged : Managed := Managed.modern "flag-b"

/-- A legacy-managed resource without a provider-config reference. -/
def unreferencedManaged : Managed :=
  Managed.legacy { name := "flag-c", providerConfigReference := none }

/-- The payload that decodes to `hostOnlyCreds`. -/
def hostOnlyData : Bytes := asciiBytes "\x7b\"api_host\":\"https://h\"\x7d"

/-- The sample cluster serving the host-only credentials: the SDK provider rejects
the configuration built from them, for want of a token. -/
def hostOnlyEnv : Env (List String) Unit String String (List String) :=
  sampleEnv none (Except.ok hostOnlyData) (Except.ok hostOnlyCreds)

/-- The sample cluster serving the credentials of the worked example. -/
def workedEnv : Env (List String) Unit String String (List String) :=
  sampleEnv none (Except.ok sampleData) (Except.ok sampleCreds)

/-- The payload of an empty JSON object. -/
def emptyData : Bytes := asciiBytes "\x7b\x7d"

/-- The sample cluster serving credentials that decode to the empty map. -/
def emptyEnv : Env (List String) Unit String String (List String) :=
  sampleEnv none (Except.ok emptyData) (Except.ok GoMap.empty)

/-- A legacy-managed resource that refers to a ProviderConfig the sample cluster
does not hold. -/
def danglingManaged : Managed :=
  Managed.legacy { name := "flag-d", providerConfigReference := some { Name := "missing" } }

/-! ## Lemmas on maps -/

section MapLemmas

variable {β : Type}

theorem GoMap.get_empty (k : String) : (GoMap.empty : GoMap β).get k = none := rfl

theorem GoMap.lookup_setEntries (l : List (String × β)) (k : String) (v : β) (k' : String) :
    List.lookup k' (GoMap.setEntries l k v) = if k' = k then some v else List.lookup k' l := by
  induction l with
  | nil =>
    by_cases h : k' = k
    · have hb : (k' == k) = true := by simp [h]
      simp [GoMap.setEntries, List.lookup, h]
    · have hb : (k' == k) = false := by simpa using h
      simp [GoMap.setEntries, List.lookup, h, hb]
  | cons p rest ih =>
    obtain ⟨a, b⟩ := p
    by_cases hak : a = k
    · subst hak
      by_cases h : k' = a
      · simp [GoMap.setEntries, List.lookup, h]
      · have hb : (k' == a) = false := by simpa using h
        simp [GoMap.setEntries, List.lookup, h, hb]
    · by_cases hk'a : k' = a
      · subst hk'a
        simp [GoMap.setEntries, List.lookup, hak]
      · have hb : (k' == a) = false := by simpa using hk'a
        simp [GoMap.setEntries, List.lookup, hak, hb, ih]

/-- Reading a map after `m[k] = v`. -/
theorem GoMap.get_set (m : GoMap β) (k : String) (v : β) (k' : String) :
    (m.set k v).get k' = if k' = k then some v else m.get k' :=
  GoMap.lookup_setEntries m.entries k v k'

end MapLemmas

/-- The configuration built at lines 78-87 is the credentials map restricted to
the three recognised keys. -/
theorem get_buildConfiguration (creds : GoMap String) (k : String) :
    (buildConfiguration creds).get k =
      if k = keyAccessToken ∨ k = keyAPIHost ∨ k = keyOAuthToken then creds.get k else none := by
  have h12 : keyAccessToken ≠ keyAPIHost := by decide
  have h13 : keyAccessToken ≠ keyOAuthToken := by decide
  have h23 : keyAPIHost ≠ keyOAuthToken := by decide
  unfold buildConfiguration
  by_cases h1 : k = keyAccessToken
  · subst h1
    cases ha : creds.get keyAccessToken <;> cases hb : creds.get keyAPIHost <;>
      cases hc : creds.get keyOAuthToken <;>
      simp [GoMap.get_set, GoMap.get_empty, h12, h13]
  · by_cases h2 : k = keyAPIHost
    · subst h2
      cases ha : creds.get keyAccessToken <;> cases hb : creds.get keyAPIHost <;>
        cases hc : creds.get keyOAuthToken <;>
        simp [GoMap.get_set, GoMap.get_empty, h23, h1]
    · by_cases h3 : k = keyOAuthToken
      · subst h3
        cases ha : creds.get keyAccessToken <;> cases hb : creds.get keyAPIHost <;>
          cases hc : creds.get keyOAuthToken <;>
          simp [GoMap.get_set, GoMap.get_empty, h1, h2]
      · cases ha : creds.get keyAccessToken <;> cases hb : creds.get keyAPIHost <;>
          cases hc : creds.get keyOAuthToken <;>
          simp [GoMap.get_set, GoMap.get_empty, h1, h2, h3]

/-! ## The outcome along each path of the pipeline -/

section Paths

variable {σ κ μ φ δ : Type} (env : Env σ κ μ φ δ) (ctx : κ) (c : σ) (mg : Managed)

theorem builder_not_legacy (h : mg.asLegacyManaged = none) :
    TerraformSetupBuilder env ctx c mg =
      ⟨Setup.zero, some (errors.New errNotLegacyManaged), c, []⟩ := by
  simp [TerraformSetupBuilder, h, Setup.zero]

theorem builder_nil_reference (lm : LegacyManaged) (h : mg.asLegacyManaged = some lm)
    (hr : lm.GetProviderConfigReference = none) :
    TerraformSetupBuilder env ctx c mg =
      ⟨Setup.zero, some (errors.New errNoProviderConfig), c, []⟩ := by
  simp [TerraformSetupBuilder, h, hr, Setup.zero]

theorem builder_get_error (lm : LegacyManaged) (configRef : Reference) (e : Error)
    (h : mg.asLegacyManaged = some lm) (hr : lm.GetProviderConfigReference = some configRef)
    (hg : env.Get ctx c { Name := configRef.Name } = Except.error e) :
    TerraformSetupBuilder env ctx c mg =
      ⟨Setup.zero, some (errors.Wrap e errGetProviderConfig), c, [Call.Get]⟩ := by
  simp [TerraformSetupBuilder, h, hr, hg, Setup.zero]

theorem builder_track_error (lm : LegacyManaged) (pc : ProviderConfig) (e : Error) (c1 : σ)
    (h : Fetches env ctx c mg lm pc) (ht : env.Track ctx c lm = (some e, c1)) :
    TerraformSetupBuilder env ctx c mg =
      ⟨Setup.zero, some (errors.Wrap e errTrackUsage), c1, [Call.Get, Call.Track]⟩ := by
  obtain ⟨h1, configRef, h2, h3⟩ := h
  simp [TerraformSetupBuilder, h1, h2, h3, ht, Setup.zero]

theorem builder_extract_error (pc : ProviderConfig) (c1 : σ) (e : Error)
    (h : Tracks env ctx c mg pc c1)
    (hx : env.CommonCredentialExtractor ctx pc.Spec.Credentials.Source c1
      pc.Spec.Credentials.CommonCredentialSelectors = Except.error e) :
    TerraformSetupBuilder env ctx c mg =
      ⟨Setup.zero, some (errors.Wrap e errExtractCredentials), c1,
        [Call.Get, Call.Track, Call.Extract]⟩ := by
  obtain ⟨lm, ⟨h1, configRef, h2, h3⟩, h4⟩ := h
  simp [TerraformSetupBuilder, h1, h2, h3, h4, hx, Setup.zero]

theorem builder_unmarshal_error (c1 : σ) (data : Bytes) (e : Error)
    (h : Extracts env ctx c mg c1 data) (hu : env.Unmarshal data = Except.error e) :
    TerraformSetupBuilder env ctx c mg =
      ⟨Setup.zero, some (errors.Wrap e errUnmarshalCredentials), c1,
        [Call.Get, Call.Track, Call.Extract, Call.Unmarshal]⟩ := by
  obtain ⟨pc, ⟨lm, ⟨h1, configRef, h2, h3⟩, h4⟩, h5⟩ := h
  simp [TerraformSetupBuilder, h1, h2, h3, h4, h5, hu, Setup.zero]

theorem builder_configure_error (c1 : σ) (creds : GoMap String)
    (h : Decodes env ctx c mg c1 creds)
    (hd : env.HasError (env.Configure ctx (buildConfiguration creds)).1 = true) :
    TerraformSetupBuilder env ctx c mg =
      ⟨{ Configuration := some (buildConfiguration creds) },
        some (errors.Wrap
          (errors.Errorf (env.Sprint (env.Configure ctx (buildConfiguration creds)).1))
          errConfigureSDKProvider), c1,
        [Call.Get, Call.Track, Call.Extract, Call.Unmarshal, Call.Configure]⟩ := by
  obtain ⟨data, ⟨pc, ⟨lm, ⟨h1, configRef, h2, h3⟩, h4⟩, h5⟩, h6⟩ := h
  simp [TerraformSetupBuilder, h1, h2, h3, h4, h5, h6, hd]

theorem builder_success (c1 : σ) (creds : GoMap String)
    (h : Decodes env ctx c mg c1 creds)
    (hd : env.HasError (env.Configure ctx (buildConfiguration creds)).1 = false) :
    TerraformSetupBuilder env ctx c mg =
      ⟨{ Configuration := some (buildConfiguration creds),
         Meta := some (env.Configure ctx (buildConfiguration creds)).2,
         FrameworkProvider := some (env.NewPluginProvider providerVersion) },
        none, c1, pipeline⟩ := by
  obtain ⟨data, ⟨pc, ⟨lm, ⟨h1, configRef, h2, h3⟩, h4⟩, h5⟩, h6⟩ := h
  simp [TerraformSetupBuilder, h1, h2, h3, h4, h5, h6, hd, pipeline]

/-- Every call takes exactly one of the eight paths. -/
theorem builder_paths :
    mg.asLegacyManaged = none ∨
    (∃ lm, mg.asLegacyManaged = some lm ∧ lm.GetProviderConfigReference = none) ∨
    (∃ lm configRef e, mg.asLegacyManaged = some lm ∧
      lm.GetProviderConfigReference = some configRef ∧
      env.Get ctx c { Name := configRef.Name } = Except.error e) ∨
    (∃ lm pc e c1, Fetches env ctx c mg lm pc ∧ env.Track ctx c lm = (some e, c1)) ∨
    (∃ pc c1 e, Tracks env ctx c mg pc c1 ∧
      env.CommonCredentialExtractor ctx pc.Spec.Credentials.Source c1
        pc.Spec.Credentials.CommonCredentialSelectors = Except.error e) ∨
    (∃ c1 data e, Extracts env ctx c mg c1 data ∧ env.Unmarshal data = Except.error e) ∨
    (∃ c1 creds, Decodes env ctx c mg c1 creds ∧
      env.HasError (env.Configure ctx (buildConfiguration creds)).1 = true) ∨
    (∃ c1 creds, Decodes env ctx c mg c1 creds ∧
      env.HasError (env.Configure ctx (buildConfiguration creds)).1 = false) := by
  cases h1 : mg.asLegacyManaged with
  | none => exact Or.inl rfl
  | some lm =>
    right
    cases h2 : lm.GetProviderConfigReference with
    | none => exact Or.inl ⟨lm, rfl, h2⟩
    | some configRef =>
      right
      cases h3 : env.Get ctx c { Name := configRef.Name } with
      | error e => exact Or.inl ⟨lm, configRef, e, rfl, h2, h3⟩
      | ok pc =>
        right
        have hf : Fetches env ctx c mg lm pc := ⟨h1, configRef, h2, h3⟩
        cases h4 : env.Track ctx c lm with
        | mk te c1 =>
          cases te with
          | some e => exact Or.inl ⟨lm, pc, e, c1, hf, h4⟩
          | none =>
            right
            have ht : Tracks env ctx c mg pc c1 := ⟨lm, hf, h4⟩
            cases h5 : env.CommonCredentialExtractor ctx pc.Spec.Credentials.Source c1
                pc.Spec.Credentials.CommonCredentialSelectors with
            | error e => exact Or.inl ⟨pc, c1, e, ht, h5⟩
            | ok data =>
              right
              have hx : Extracts env ctx c mg c1 data := ⟨pc, ht, h5⟩
              cases h6 : env.Unmarshal data with
              | error e => exact Or.inl ⟨c1, data, e, hx, h6⟩
              | ok creds =>
                right
                have hdec : Decodes env ctx c mg c1 creds := ⟨data, hx, h6⟩
                cases h7 : env.HasError (env.Configure ctx (buildConfiguration creds)).1 with
                | true => exact Or.inl ⟨c1, creds, hdec, h7⟩
                | false => exact Or.inr ⟨c1, creds, hdec, h7⟩

/-- Once `Track` has succeeded the call takes one of four paths, all of which
leave the cluster as the tracker left it. -/
theorem builder_after_track (pc : ProviderConfig) (c1 : σ) (h : Tracks env ctx c mg pc c1) :
    (TerraformSetupBuilder env ctx c mg).cluster = c1 ∧
      ((TerraformSetupBuilder env ctx c mg).calls = [Call.Get, Call.Track, Call.Extract] ∨
        (TerraformSetupBuilder env ctx c mg).calls =
          [Call.Get, Call.Track, Call.Extract, Call.Unmarshal] ∨
        (TerraformSetupBuilder env ctx c mg).calls =
          [Call.Get, Call.Track, Call.Extract, Call.Unmarshal, Call.Configure] ∨
        (TerraformSetupBuilder env ctx c mg).calls = pipeline ∧
          (TerraformSetupBuilder env ctx c mg).err = none) := by
  cases h5 : env.CommonCredentialExtractor ctx pc.Spec.Credentials.Source c1
      pc.Spec.Credentials.CommonCredentialSelectors with
  | error e =>
    rw [builder_extract_error env ctx c mg pc c1 e h h5]
    exact ⟨rfl, Or.inl rfl⟩
  | ok data =>
    have hx : Extracts env ctx c mg c1 data := ⟨pc, h, h5⟩
    cases h6 : env.Unmarshal data with
    | error e =>
      rw [builder_unmarshal_error env ctx c mg c1 data e hx h6]
      exact ⟨rfl, Or.inr (Or.inl rfl)⟩
    | ok creds =>
      have hdec : Decodes env ctx c mg c1 creds := ⟨data, hx, h6⟩
      cases h7 : env.HasError (env.Configure ctx (buildConfiguration creds)).1 with
      | true =>
        rw [builder_configure_error env ctx c mg c1 creds hdec h7]
        exact ⟨rfl, Or.inr (Or.inr (Or.inl rfl))⟩
      | false =>
        rw [builder_success env ctx c mg c1 creds hdec h7]
        exact ⟨rfl, Or.inr (Or.inr (Or.inr ⟨rfl, rfl⟩))⟩

end Paths

/-! ## The sample environment along the pipeline -/

section Sample

variable (tracked : Option Error) (extracted : Except Error Bytes)
  (decoded : Except Error (GoMap String))

theorem sample_fetches :
    Fetches (sampleEnv tracked extracted decoded) () [] sampleManaged
      { name := "flag-a", providerConfigReference := some { Name := "default" } }
      sampleProviderConfig :=
  ⟨rfl, { Name := "default" }, rfl, rfl⟩

theorem sample_tracks :
    Tracks (sampleEnv none extracted decoded) () [] sampleManaged sampleProviderConfig
      ["flag-a"] :=
  ⟨_, sample_fetches none extracted decoded, rfl⟩

theorem sample_extracts (data : Bytes) :
    Extracts (sampleEnv none (Except.ok data) decoded) () [] sampleManaged ["flag-a"] data :=
  ⟨_, sample_tracks (Except.ok data) decoded, rfl⟩

theorem sample_decodes (data : Bytes) (creds : GoMap String) :
    Decodes (sampleEnv none (Except.ok data) (Except.ok creds)) () [] sampleManaged
      ["flag-a"] creds :=
  ⟨data, sample_extracts (Except.ok creds) data, rfl⟩

end Sample

/-! ## The claims -/

section Claims

variable {σ κ μ φ δ : Type}

/-- C1: whenever a call gets past the decoding of the credentials (steps 1-6
succeed with the map `creds`), the returned `Configuration` is set and is exactly
the restriction of `creds` to the keys `access_token`, `api_host` and
`oauth_token`: a key is in it iff it is one of these three strings and is in
`creds`, and every key in it carries the value `creds` has for it. -/
theorem configuration_is_restriction_of_credentials (env : Env σ κ μ φ δ) (ctx : κ) (c : σ)
    (mg : Managed) (c1 : σ) (creds : GoMap String) (h : Decodes env ctx c mg c1 creds) :
    ∃ cfg, (TerraformSetupBuilder env ctx c mg).ps.Configuration = some cfg ∧
      ∀ k : String,
        ((cfg.get k).isSome = true ↔
          (k = "access_token" ∨ k = "api_host" ∨ k = "oauth_token") ∧
            (creds.get k).isSome = true) ∧
        ((cfg.get k).isSome = true → cfg.get k = creds.get k) := by
  refine ⟨buildConfiguration creds, ?_, ?_⟩
  · cases hd : env.HasError (env.Configure ctx (buildConfiguration creds)).1 with
    | true => rw [builder_configure_error env ctx c mg c1 creds h hd]
    | false => rw [builder_success env ctx c mg c1 creds h hd]
  · intro k
    have hk := get_buildConfiguration creds k
    simp only [keyAccessToken, keyAPIHost, keyOAuthToken] at hk
    by_cases hmem : k = "access_token" ∨ k = "api_host" ∨ k = "oauth_token"
    · rw [if_pos hmem] at hk
      rw [hk]
      exact ⟨⟨fun hs => ⟨hmem, hs⟩, fun hs => hs.2⟩, fun _ => rfl⟩
    · rw [if_neg hmem] at hk
      rw [hk]
      simp [hmem]

/-- The worked example of the spec: credentials with `access_token`, `api_host` and a
stray key `unused` give exactly the two recognised entries. -/
theorem configuration_is_restriction_of_credentials_witness :
    Decodes (sampleEnv none (Except.ok sampleData) (Except.ok sampleCreds)) () []
        sampleManaged ["flag-a"] sampleCreds ∧
      (∃ cfg, (TerraformSetupBuilder
            (sampleEnv none (Except.ok sampleData) (Except.ok sampleCreds)) () []
            sampleManaged).ps.Configuration = some cfg ∧
        ∀ k : String,
          ((cfg.get k).isSome = true ↔
            (k = "access_token" ∨ k = "api_host" ∨ k = "oauth_token") ∧
              (sampleCreds.get k).isSome = true) ∧
          ((cfg.get k).isSome = true → cfg.get k = sampleCreds.get k)) ∧
      (TerraformSetupBuilder
          (sampleEnv none (Except.ok sampleData) (Except.ok sampleCreds)) () []
          sampleManaged).ps.Configuration =
        some ⟨[("access_token", "tok"), ("api_host", "https://h")]⟩ :=
  ⟨sample_decodes sampleData sampleCreds,
    configuration_is_restriction_of_credentials _ () [] sampleManaged ["flag-a"] sampleCreds
      (sample_decodes sampleData sampleCreds),
    by decide⟩

/-- C3: a managed resource that does not implement `LegacyManaged` makes the call
fail with the error `managed resource does not implement LegacyManaged`, whatever
the client state and the context; no collaborator is called, the cluster is left
as it was and the returned Setup is the zero value. -/
theorem not_legacy_managed_fails_untouched (env : Env σ κ μ φ δ) (ctx : κ) (c : σ)
    (mg : Managed) (h : mg.asLegacyManaged = none) :
    (TerraformSetupBuilder env ctx c mg).err =
        some (errors.New "managed resource does not implement LegacyManaged") ∧
      (TerraformSetupBuilder env ctx c mg).calls = [] ∧
      (TerraformSetupBuilder env ctx c mg).cluster = c ∧
      (TerraformSetupBuilder env ctx c mg).ps = Setup.zero := by
  rw [builder_not_legacy env ctx c mg h]
  exact ⟨rfl, rfl, rfl, rfl⟩

/-- On the sample cluster, a resource that is not legacy-managed is turned away
and the recorded usages stay as they were. -/
theorem not_legacy_managed_fails_untouched_witness :
    modernManaged.asLegacyManaged = none ∧
      (TerraformSetupBuilder (sampleEnv none (Except.ok sampleData) (Except.ok sampleCreds))
          () ["flag-a"] modernManaged).err =
        some (errors.New "managed resource does not implement LegacyManaged") ∧
      (TerraformSetupBuilder (sampleEnv none (Except.ok sampleData) (Except.ok sampleCreds))
          () ["flag-a"] modernManaged).calls = [] ∧
      (TerraformSetupBuilder (sampleEnv none (Except.ok sampleData) (Except.ok sampleCreds))
          () ["flag-a"] modernManaged).cluster = ["flag-a"] ∧
      (TerraformSetupBuilder (sampleEnv none (Except.ok sampleData) (Except.ok sampleCreds))
          () ["flag-a"] modernManaged).ps = Setup.zero :=
  ⟨rfl, not_legacy_managed_fails_untouched _ () ["flag-a"] modernManaged rfl⟩

/-- C4: a legacy-managed resource whose `GetProviderConfigReference` returns nil
makes the call fail with the error `no providerConfigRef provided` before any
fetch: neither `Get`, nor the usage tracker, nor the credential extractor (nor any
other collaborator) is called, and the cluster is left as it was. -/
theorem nil_reference_fails_before_fetch (env : Env σ κ μ φ δ) (ctx : κ) (c : σ)
    (mg : Managed) (lm : LegacyManaged) (h : mg.asLegacyManaged = some lm)
    (hr : lm.GetProviderConfigReference = none) :
    (TerraformSetupBuilder env ctx c mg).err =
        some (errors.New "no providerConfigRef provided") ∧
      (TerraformSetupBuilder env ctx c mg).calls = [] ∧
      (TerraformSetupBuilder env ctx c mg).cluster = c := by
  rw [builder_nil_reference env ctx c mg lm h hr]
  exact ⟨rfl, rfl, rfl⟩

/-- On the sample cluster, a resource without a reference is turned away before
any fetch. -/
theorem nil_reference_fails_before_fetch_witness :
    (TerraformSetupBuilder (sampleEnv none (Except.ok sampleData) (Except.ok sampleCreds))
          () ["flag-a"] unreferencedManaged).err =
        some (errors.New "no providerConfigRef provided") ∧
      (TerraformSetupBuilder (sampleEnv none (Except.ok sampleData) (Except.ok sampleCreds))
          () ["flag-a"] unreferencedManaged).calls = [] ∧
      (TerraformSetupBuilder (sampleEnv none (Except.ok sampleData) (Except.ok sampleCreds))
          () ["flag-a"] unreferencedManaged).cluster = ["flag-a"] :=
  nil_reference_fails_before_fetch _ () ["flag-a"] unreferencedManaged
    { name := "flag-c", providerConfigReference := none } rfl rfl

/-- C5: when steps 1-5 succeed and `json.Unmarshal` rejects the extracted bytes
with the error `e`, the call fails with `e` wrapped under the prefix
`cannot unmarshal launchdarkly credentials as JSON`, the returned Setup has no
Configuration (it is the zero value), and the SDK provider's `Configure` is not
called. -/
theorem malformed_credentials_fail_without_configuration (env : Env σ κ μ φ δ) (ctx : κ)
    (c : σ) (mg : Managed) (c1 : σ) (data : Bytes) (e : Error)
    (h : Extracts env ctx c mg c1 data) (hu : env.Unmarshal data = Except.error e) :
    (TerraformSetupBuilder env ctx c mg).err =
        some (errors.Wrap e "cannot unmarshal launchdarkly credentials as JSON") ∧
      ((TerraformSetupBuilder env ctx c mg).err.map Error.message =
        some ("cannot unmarshal launchdarkly credentials as JSON: " ++ e.message)) ∧
      (TerraformSetupBuilder env ctx c mg).ps.Configuration = none ∧
      (TerraformSetupBuilder env ctx c mg).ps = Setup.zero ∧
      Call.Configure ∉ (TerraformSetupBuilder env ctx c mg).calls := by
  rw [builder_unmarshal_error env ctx c mg c1 data e h hu]
  refine ⟨rfl, ?_, rfl, rfl, by simp⟩
  simp [errors.Wrap, Error.message, errUnmarshalCredentials]

/-- On the sample cluster, a payload that is not JSON stops the call at the
decoder. -/
theorem malformed_credentials_fail_without_configuration_witness :
    Extracts (sampleEnv none (Except.ok malformedData)
        (Except.error (Error.fundamental "invalid character")))
        () [] sampleManaged ["flag-a"] malformedData ∧
      (TerraformSetupBuilder (sampleEnv none (Except.ok malformedData)
          (Except.error (Error.fundamental "invalid character"))) () [] sampleManaged).err =
        some (errors.Wrap (Error.fundamental "invalid character")
          "cannot unmarshal launchdarkly credentials as JSON") ∧
      ((TerraformSetupBuilder (sampleEnv none (Except.ok malformedData)
          (Except.error (Error.fundamental "invalid character"))) () []
          sampleManaged).err.map Error.message =
        some ("cannot unmarshal launchdarkly credentials as JSON: " ++
          (Error.fundamental "invalid character").message)) ∧
      (TerraformSetupBuilder (sampleEnv none (Except.ok malformedData)
          (Except.error (Error.fundamental "invalid character"))) () []
          sampleManaged).ps.Configuration = none ∧
      (TerraformSetupBuilder (sampleEnv none (Except.ok malformedData)
          (Except.error (Error.fundamental "invalid character"))) () []
          sampleManaged).ps = Setup.zero ∧
      Call.Configure ∉ (TerraformSetupBuilder (sampleEnv none (Except.ok malformedData)
          (Except.error (Error.fundamental "invalid character"))) () []
          sampleManaged).calls :=
  ⟨sample_extracts _ malformedData,
    malformed_credentials_fail_without_configuration _ () [] sampleManaged ["flag-a"]
      malformedData (Error.fundamental "invalid character")
      (sample_extracts _ malformedData) rfl⟩

/-- An error can come with a Setup that is not the zero value: with credentials
that name only `api_host` the SDK provider's `Configure` reports an error, the
call returns a non-nil error, and the Setup returned with it carries the
configuration map built at lines 78-87. -/
theorem configure_failure_returns_built_configuration :
    (TerraformSetupBuilder hostOnlyEnv () [] sampleManaged).err.isSome = true ∧
      (TerraformSetupBuilder hostOnlyEnv () [] sampleManaged).calls =
        [Call.Get, Call.Track, Call.Extract, Call.Unmarshal, Call.Configure] ∧
      (TerraformSetupBuilder hostOnlyEnv () [] sampleManaged).ps.Configuration =
        some ⟨[("api_host", "https://h")]⟩ ∧
      (TerraformSetupBuilder hostOnlyEnv () [] sampleManaged).ps ≠ Setup.zero := by
  refine ⟨by decide, by decide, by decide, ?_⟩
  intro h
  have hc := congrArg Setup.Configuration h
  revert hc
  decide

/-- C2, amended: a call that returns a nil error returns a Setup with
Configuration, Meta and FrameworkProvider all set.  A call that returns a non-nil
error returns a Setup whose Meta and FrameworkProvider are unset; that Setup is the
zero value when the call failed before the SDK provider's `Configure` was called,
and when `Configure` was called it carries the configuration map built from the
decoded credentials. -/
theorem setup_on_error_and_on_success (env : Env σ κ μ φ δ) (ctx : κ) (c : σ)
    (mg : Managed) :
    ((TerraformSetupBuilder env ctx c mg).err = none →
      ∃ cfg m f, (TerraformSetupBuilder env ctx c mg).ps =
        { Configuration := some cfg, Meta := some m, FrameworkProvider := some f }) ∧
    ((TerraformSetupBuilder env ctx c mg).err ≠ none →
      (TerraformSetupBuilder env ctx c mg).ps.Meta = none ∧
      (TerraformSetupBuilder env ctx c mg).ps.FrameworkProvider = none ∧
      (Call.Configure ∉ (TerraformSetupBuilder env ctx c mg).calls →
        (TerraformSetupBuilder env ctx c mg).ps = Setup.zero) ∧
      (Call.Configure ∈ (TerraformSetupBuilder env ctx c mg).calls →
        ∃ c1 creds, Decodes env ctx c mg c1 creds ∧
          (TerraformSetupBuilder env ctx c mg).ps =
            { Configuration := some (buildConfiguration creds) })) := by
  rcases builder_paths env ctx c mg with h | ⟨lm, h, hr⟩ | ⟨lm, ref, e, h, hr, hg⟩ |
    ⟨lm, pc, e, c1, hf, ht⟩ | ⟨pc, c1, e, ht, hx⟩ | ⟨c1, data, e, hx, hu⟩ |
    ⟨c1, creds, hd, hh⟩ | ⟨c1, creds, hd, hh⟩
  · rw [builder_not_legacy env ctx c mg h]
    simp [Setup.zero]
  · rw [builder_nil_reference env ctx c mg lm h hr]
    simp [Setup.zero]
  · rw [builder_get_error env ctx c mg lm ref e h hr hg]
    simp [Setup.zero]
  · rw [builder_track_error env ctx c mg lm pc e c1 hf ht]
    simp [Setup.zero]
  · rw [builder_extract_error env ctx c mg pc c1 e ht hx]
    simp [Setup.zero]
  · rw [builder_unmarshal_error env ctx c mg c1 data e hx hu]
    simp [Setup.zero]
  · rw [builder_configure_error env ctx c mg c1 creds hd hh]
    refine ⟨fun h => by simp at h, fun _ => ⟨rfl, rfl, fun h => by simp at h, fun _ => ?_⟩⟩
    exact ⟨c1, creds, hd, rfl⟩
  · rw [builder_success env ctx c mg c1 creds hd hh]
    exact ⟨fun _ => ⟨_, _, _, rfl⟩, fun h => absurd rfl h⟩

/-- C6: when steps 1-6 succeed and `Configure`, called on the configuration map
built from the credentials, returns diagnostics that contain an error, the call
fails with the error `cannot configure LaunchDarkly SDK provider` wrapping an
error whose text is the `%v` rendering of those diagnostics, so that the message
is the prefix, a colon and a space, then that text; neither the Meta handle nor
the plugin-framework provider is attached, and neither is asked for. -/
theorem configure_diagnostics_fail_without_handles (env : Env σ κ μ φ δ) (ctx : κ) (c : σ)
    (mg : Managed) (c1 : σ) (creds : GoMap String) (h : Decodes env ctx c mg c1 creds)
    (hd : env.HasError (env.Configure ctx (buildConfiguration creds)).1 = true) :
    (TerraformSetupBuilder env ctx c mg).err =
        some (errors.Wrap
          (errors.Errorf (env.Sprint (env.Configure ctx (buildConfiguration creds)).1))
          "cannot configure LaunchDarkly SDK provider") ∧
      (TerraformSetupBuilder env ctx c mg).err.map Error.message =
        some ("cannot configure LaunchDarkly SDK provider: " ++
          env.Sprint (env.Configure ctx (buildConfiguration creds)).1) ∧
      (TerraformSetupBuilder env ctx c mg).ps.Meta = none ∧
      (TerraformSetupBuilder env ctx c mg).ps.FrameworkProvider = none ∧
      Call.Meta ∉ (TerraformSetupBuilder env ctx c mg).calls ∧
      Call.NewPluginProvider ∉ (TerraformSetupBuilder env ctx c mg).calls := by
  rw [builder_configure_error env ctx c mg c1 creds h hd]
  refine ⟨rfl, ?_, rfl, rfl, by simp, by simp⟩
  simp [errors.Wrap, errors.Errorf, Error.message, errConfigureSDKProvider]

/-- On the sample cluster, credentials without a token are rejected by the SDK
provider and no handle is attached. -/
theorem configure_diagnostics_fail_without_handles_witness :
    Decodes hostOnlyEnv () [] sampleManaged ["flag-a"] hostOnlyCreds ∧
      hostOnlyEnv.HasError (hostOnlyEnv.Configure () (buildConfiguration hostOnlyCreds)).1
        = true ∧
      (TerraformSetupBuilder hostOnlyEnv () [] sampleManaged).err =
        some (errors.Wrap
          (errors.Errorf
            (hostOnlyEnv.Sprint (hostOnlyEnv.Configure () (buildConfiguration hostOnlyCreds)).1))
          "cannot configure LaunchDarkly SDK provider") ∧
      (TerraformSetupBuilder hostOnlyEnv () [] sampleManaged).err.map Error.message =
        some ("cannot configure LaunchDarkly SDK provider: " ++
          hostOnlyEnv.Sprint (hostOnlyEnv.Configure () (buildConfiguration hostOnlyCreds)).1) ∧
      (TerraformSetupBuilder hostOnlyEnv () [] sampleManaged).ps.Meta = none ∧
      (TerraformSetupBuilder hostOnlyEnv () [] sampleManaged).ps.FrameworkProvider = none ∧
      Call.Meta ∉ (TerraformSetupBuilder hostOnlyEnv () [] sampleManaged).calls ∧
      Call.NewPluginProvider ∉ (TerraformSetupBuilder hostOnlyEnv () [] sampleManaged).calls :=
  ⟨sample_decodes hostOnlyData hostOnlyCreds, by decide,
    configure_diagnostics_fail_without_handles hostOnlyEnv () [] sampleManaged ["flag-a"]
      hostOnlyCreds (sample_decodes hostOnlyData hostOnlyCreds) (by decide)⟩

/-- C7: whenever the call returns a nil error, whatever the credentials hold, the
returned Setup has `FrameworkProvider` set to the provider that
`NewPluginProvider` builds for the version `2.25.3`, a value in which the
credentials do not occur, and `Meta` set to the handle of the SDK provider
configured with the map built from the decoded credentials. -/
theorem success_attaches_both_handles (env : Env σ κ μ φ δ) (ctx : κ) (c : σ)
    (mg : Managed) (h : (TerraformSetupBuilder env ctx c mg).err = none) :
    (TerraformSetupBuilder env ctx c mg).ps.FrameworkProvider =
        some (env.NewPluginProvider "2.25.3") ∧
      ∃ c1 creds, Decodes env ctx c mg c1 creds ∧
        (TerraformSetupBuilder env ctx c mg).ps.Meta =
          some (env.Configure ctx (buildConfiguration creds)).2 := by
  rcases builder_paths env ctx c mg with h1 | ⟨lm, h1, hr⟩ | ⟨lm, ref, e, h1, hr, hg⟩ |
    ⟨lm, pc, e, c1, hf, ht⟩ | ⟨pc, c1, e, ht, hx⟩ | ⟨c1, data, e, hx, hu⟩ |
    ⟨c1, creds, hd, hh⟩ | ⟨c1, creds, hd, hh⟩
  · rw [builder_not_legacy env ctx c mg h1] at h
    simp at h
  · rw [builder_nil_reference env ctx c mg lm h1 hr] at h
    simp at h
  · rw [builder_get_error env ctx c mg lm ref e h1 hr hg] at h
    simp at h
  · rw [builder_track_error env ctx c mg lm pc e c1 hf ht] at h
    simp at h
  · rw [builder_extract_error env ctx c mg pc c1 e ht hx] at h
    simp at h
  · rw [builder_unmarshal_error env ctx c mg c1 data e hx hu] at h
    simp at h
  · rw [builder_configure_error env ctx c mg c1 creds hd hh] at h
    simp at h
  · rw [builder_success env ctx c mg c1 creds hd hh]
    exact ⟨rfl, c1, creds, hd, rfl⟩

/-- On the sample cluster, the credentials of the worked example give both
handles. -/
theorem success_attaches_both_handles_witness :
    (TerraformSetupBuilder workedEnv () [] sampleManaged).err = none ∧
      ((TerraformSetupBuilder workedEnv () [] sampleManaged).ps.FrameworkProvider =
          some (workedEnv.NewPluginProvider "2.25.3") ∧
        ∃ c1 creds, Decodes workedEnv () [] sampleManaged c1 creds ∧
          (TerraformSetupBuilder workedEnv () [] sampleManaged).ps.Meta =
            some (workedEnv.Configure () (buildConfiguration creds)).2) :=
  ⟨by decide, success_attaches_both_handles workedEnv () [] sampleManaged (by decide)⟩

/-- C8: with the records of the usage tracker as the explicit state `σ`: when
steps 1-4 succeed, `Track` leaving the state `c1`, and the call then fails at a
later step, the state after the call is `c1`, the tracker was called exactly once,
and the calls made are among `Get`, `Track`, the extractor, the decoder and
`Configure`: nothing undoes the tracking. -/
theorem failure_after_tracking_keeps_records (env : Env σ κ μ φ δ) (ctx : κ) (c : σ)
    (mg : Managed) (pc : ProviderConfig) (c1 : σ) (ht : Tracks env ctx c mg pc c1)
    (hf : (TerraformSetupBuilder env ctx c mg).err ≠ none) :
    (TerraformSetupBuilder env ctx c mg).cluster = c1 ∧
      (TerraformSetupBuilder env ctx c mg).calls.count Call.Track = 1 ∧
      ∀ call ∈ (TerraformSetupBuilder env ctx c mg).calls,
        call ∈ [Call.Get, Call.Track, Call.Extract, Call.Unmarshal, Call.Configure] := by
  obtain ⟨hc, hcalls⟩ := builder_after_track env ctx c mg pc c1 ht
  refine ⟨hc, ?_⟩
  rcases hcalls with h | h | h | ⟨_, h⟩
  · rw [h]; exact ⟨by decide, by decide⟩
  · rw [h]; exact ⟨by decide, by decide⟩
  · rw [h]; exact ⟨by decide, by decide⟩
  · exact absurd h hf

/-- On the sample cluster the tracker records `flag-a`, the SDK provider then
rejects the configuration, and the record stays. -/
theorem failure_after_tracking_keeps_records_witness :
    Tracks hostOnlyEnv () [] sampleManaged sampleProviderConfig ["flag-a"] ∧
      (TerraformSetupBuilder hostOnlyEnv () [] sampleManaged).err ≠ none ∧
      (TerraformSetupBuilder hostOnlyEnv () [] sampleManaged).cluster = ["flag-a"] ∧
      (TerraformSetupBuilder hostOnlyEnv () [] sampleManaged).calls.count Call.Track = 1 ∧
      ∀ call ∈ (TerraformSetupBuilder hostOnlyEnv () [] sampleManaged).calls,
        call ∈ [Call.Get, Call.Track, Call.Extract, Call.Unmarshal, Call.Configure] :=
  ⟨sample_tracks _ _, by decide,
    failure_after_tracking_keeps_records hostOnlyEnv () [] sampleManaged sampleProviderConfig
      ["flag-a"] (sample_tracks _ _) (by decide)⟩

/-- C9: the call is a linear pipeline with early return.  The collaborator calls
it makes are an initial segment of `Get`, `Track`, extractor, decoder,
`Configure`, `Meta`, `NewPluginProvider`, each made at most once.  When the
steps before a step succeed and that step fails with `e`, the returned error is
`e` wrapped under that step's prefix and the calls stop at that step: `Get`
under `cannot get referenced ProviderConfig` (tracker and extractor not called),
`Track` under `cannot track ProviderConfig usage`, the extractor under
`cannot extract credentials`, the decoder under
`cannot unmarshal launchdarkly credentials as JSON`, and `Configure` (the error
made of the diagnostics) under `cannot configure LaunchDarkly SDK provider`.  A
nil error means that the whole pipeline ran. -/
theorem pipeline_is_linear_with_early_return (env : Env σ κ μ φ δ) (ctx : κ) (c : σ)
    (mg : Managed) :
    (TerraformSetupBuilder env ctx c mg).calls <+: pipeline ∧
    (TerraformSetupBuilder env ctx c mg).calls.Nodup ∧
    (∀ lm configRef e, mg.asLegacyManaged = some lm →
      lm.GetProviderConfigReference = some configRef →
      env.Get ctx c { Name := configRef.Name } = Except.error e →
      (TerraformSetupBuilder env ctx c mg).err =
          some (errors.Wrap e "cannot get referenced ProviderConfig") ∧
        (TerraformSetupBuilder env ctx c mg).calls = [Call.Get]) ∧
    (∀ lm pc e c1, Fetches env ctx c mg lm pc → env.Track ctx c lm = (some e, c1) →
      (TerraformSetupBuilder env ctx c mg).err =
          some (errors.Wrap e "cannot track ProviderConfig usage") ∧
        (TerraformSetupBuilder env ctx c mg).calls = [Call.Get, Call.Track]) ∧
    (∀ pc c1 e, Tracks env ctx c mg pc c1 →
      env.CommonCredentialExtractor ctx pc.Spec.Credentials.Source c1
        pc.Spec.Credentials.CommonCredentialSelectors = Except.error e →
      (TerraformSetupBuilder env ctx c mg).err =
          some (errors.Wrap e "cannot extract credentials") ∧
        (TerraformSetupBuilder env ctx c mg).calls = [Call.Get, Call.Track, Call.Extract]) ∧
    (∀ c1 data e, Extracts env ctx c mg c1 data → env.Unmarshal data = Except.error e →
      (TerraformSetupBuilder env ctx c mg).err =
          some (errors.Wrap e "cannot unmarshal launchdarkly credentials as JSON") ∧
        (TerraformSetupBuilder env ctx c mg).calls =
          [Call.Get, Call.Track, Call.Extract, Call.Unmarshal]) ∧
    (∀ c1 creds, Decodes env ctx c mg c1 creds →
      env.HasError (env.Configure ctx (buildConfiguration creds)).1 = true →
      (TerraformSetupBuilder env ctx c mg).err =
          some (errors.Wrap
            (errors.Errorf (env.Sprint (env.Configure ctx (buildConfiguration creds)).1))
            "cannot configure LaunchDarkly SDK provider") ∧
        (TerraformSetupBuilder env ctx c mg).calls =
          [Call.Get, Call.Track, Call.Extract, Call.Unmarshal, Call.Configure]) ∧
    ((TerraformSetupBuilder env ctx c mg).err = none →
      (TerraformSetupBuilder env ctx c mg).calls = pipeline) := by
  refine ⟨?_, ?_, ?_, ?_, ?_, ?_, ?_, ?_⟩
  · rcases builder_paths env ctx c mg with h | ⟨lm, h, hr⟩ | ⟨lm, ref, e, h, hr, hg⟩ |
      ⟨lm, pc, e, c1, hf, ht⟩ | ⟨pc, c1, e, ht, hx⟩ | ⟨c1, data, e, hx, hu⟩ |
      ⟨c1, creds, hd, hh⟩ | ⟨c1, creds, hd, hh⟩
    · rw [builder_not_legacy env ctx c mg h]; exact ⟨pipeline, rfl⟩
    · rw [builder_nil_reference env ctx c mg lm h hr]; exact ⟨pipeline, rfl⟩
    · rw [builder_get_error env ctx c mg lm ref e h hr hg]; exact ⟨_, rfl⟩
    · rw [builder_track_error env ctx c mg lm pc e c1 hf ht]; exact ⟨_, rfl⟩
    · rw [builder_extract_error env ctx c mg pc c1 e ht hx]; exact ⟨_, rfl⟩
    · rw [builder_unmarshal_error env ctx c mg c1 data e hx hu]; exact ⟨_, rfl⟩
    · rw [builder_configure_error env ctx c mg c1 creds hd hh]; exact ⟨_, rfl⟩
    · rw [builder_success env ctx c mg c1 creds hd hh]
  · rcases builder_paths env ctx c mg with h | ⟨lm, h, hr⟩ | ⟨lm, ref, e, h, hr, hg⟩ |
      ⟨lm, pc, e, c1, hf, ht⟩ | ⟨pc, c1, e, ht, hx⟩ | ⟨c1, data, e, hx, hu⟩ |
      ⟨c1, creds, hd, hh⟩ | ⟨c1, creds, hd, hh⟩
    · rw [builder_not_legacy env ctx c mg h]; simp [pipeline]
    · rw [builder_nil_reference env ctx c mg lm h hr]; simp [pipeline]
    · rw [builder_get_error env ctx c mg lm ref e h hr hg]; simp [pipeline]
    · rw [builder_track_error env ctx c mg lm pc e c1 hf ht]; simp [pipeline]
    · rw [builder_extract_error env ctx c mg pc c1 e ht hx]; simp [pipeline]
    · rw [builder_unmarshal_error env ctx c mg c1 data e hx hu]; simp [pipeline]
    · rw [builder_configure_error env ctx c mg c1 creds hd hh]; simp [pipeline]
    · rw [builder_success env ctx c mg c1 creds hd hh]; simp [pipeline]
  · intro lm ref e h hr hg
    rw [builder_get_error env ctx c mg lm ref e h hr hg]; exact ⟨rfl, rfl⟩
  · intro lm pc e c1 hf ht
    rw [builder_track_error env ctx c mg lm pc e c1 hf ht]; exact ⟨rfl, rfl⟩
  · intro pc c1 e ht hx
    rw [builder_extract_error env ctx c mg pc c1 e ht hx]; exact ⟨rfl, rfl⟩
  · intro c1 data e hx hu
    rw [builder_unmarshal_error env ctx c mg c1 data e hx hu]; exact ⟨rfl, rfl⟩
  · intro c1 creds hd hh
    rw [builder_configure_error env ctx c mg c1 creds hd hh]; exact ⟨rfl, rfl⟩
  · intro hnil
    rcases builder_paths env ctx c mg with h | ⟨lm, h, hr⟩ | ⟨lm, ref, e, h, hr, hg⟩ |
      ⟨lm, pc, e, c1, hf, ht⟩ | ⟨pc, c1, e, ht, hx⟩ | ⟨c1, data, e, hx, hu⟩ |
      ⟨c1, creds, hd, hh⟩ | ⟨c1, creds, hd, hh⟩
    · rw [builder_not_legacy env ctx c mg h] at hnil; simp at hnil
    · rw [builder_nil_reference env ctx c mg lm h hr] at hnil; simp at hnil
    · rw [builder_get_error env ctx c mg lm ref e h hr hg] at hnil; simp at hnil
    · rw [builder_track_error env ctx c mg lm pc e c1 hf ht] at hnil; simp at hnil
    · rw [builder_extract_error env ctx c mg pc c1 e ht hx] at hnil; simp at hnil
    · rw [builder_unmarshal_error env ctx c mg c1 data e hx hu] at hnil; simp at hnil
    · rw [builder_configure_error env ctx c mg c1 creds hd hh] at hnil; simp at hnil
    · rw [builder_success env ctx c mg c1 creds hd hh]

/-- On the sample cluster, a reference to a ProviderConfig that does not exist
fails at `Get`, with the lookup error wrapped, and only `Get` is called. -/
theorem pipeline_is_linear_with_early_return_witness :
    (TerraformSetupBuilder workedEnv () [] danglingManaged).err =
        some (errors.Wrap (Error.fundamental "not found")
          "cannot get referenced ProviderConfig") ∧
      (TerraformSetupBuilder workedEnv () [] danglingManaged).calls = [Call.Get] :=
  (pipeline_is_linear_with_early_return workedEnv () [] danglingManaged).2.2.1
    { name := "flag-d", providerConfigReference := some { Name := "missing" } }
    { Name := "missing" } (Error.fundamental "not found") rfl rfl rfl

/-- C10: the call returns a nil error iff the managed resource implements
`LegacyManaged`, its provider-config reference is non-nil, `Get` of the
ProviderConfig named by the reference succeeds, usage tracking succeeds,
credential extraction succeeds, the extracted bytes decode to a map, and
`Configure` on the map built from it returns diagnostics without an error.  No
credential key is needed for that: when the credentials decode to the empty map
the Configuration is set and empty, and `Configure` is called. -/
theorem nil_error_iff_every_step_succeeds (env : Env σ κ μ φ δ) (ctx : κ) (c : σ)
    (mg : Managed) :
    ((TerraformSetupBuilder env ctx c mg).err = none ↔
      ∃ lm configRef pc c1 data creds,
        mg.asLegacyManaged = some lm ∧
        lm.GetProviderConfigReference = some configRef ∧
        env.Get ctx c { Name := configRef.Name } = Except.ok pc ∧
        env.Track ctx c lm = (none, c1) ∧
        env.CommonCredentialExtractor ctx pc.Spec.Credentials.Source c1
          pc.Spec.Credentials.CommonCredentialSelectors = Except.ok data ∧
        env.Unmarshal data = Except.ok creds ∧
        env.HasError (env.Configure ctx (buildConfiguration creds)).1 = false) ∧
    (∀ c1, Decodes env ctx c mg c1 GoMap.empty →
      (TerraformSetupBuilder env ctx c mg).ps.Configuration = some GoMap.empty ∧
        Call.Configure ∈ (TerraformSetupBuilder env ctx c mg).calls) := by
  constructor
  · constructor
    · intro hnil
      rcases builder_paths env ctx c mg with h | ⟨lm, h, hr⟩ | ⟨lm, ref, e, h, hr, hg⟩ |
        ⟨lm, pc, e, c1, hf, ht⟩ | ⟨pc, c1, e, ht, hx⟩ | ⟨c1, data, e, hx, hu⟩ |
        ⟨c1, creds, hd, hh⟩ | ⟨c1, creds, hd, hh⟩
      · rw [builder_not_legacy env ctx c mg h] at hnil; simp at hnil
      · rw [builder_nil_reference env ctx c mg lm h hr] at hnil; simp at hnil
      · rw [builder_get_error env ctx c mg lm ref e h hr hg] at hnil; simp at hnil
      · rw [builder_track_error env ctx c mg lm pc e c1 hf ht] at hnil; simp at hnil
      · rw [builder_extract_error env ctx c mg pc c1 e ht hx] at hnil; simp at hnil
      · rw [builder_unmarshal_error env ctx c mg c1 data e hx hu] at hnil; simp at hnil
      · rw [builder_configure_error env ctx c mg c1 creds hd hh] at hnil; simp at hnil
      · obtain ⟨data, ⟨pc, ⟨lm, ⟨h1, configRef, h2, h3⟩, h4⟩, h5⟩, h6⟩ := hd
        exact ⟨lm, configRef, pc, c1, data, creds, h1, h2, h3, h4, h5, h6, hh⟩
    · rintro ⟨lm, configRef, pc, c1, data, creds, h1, h2, h3, h4, h5, h6, hh⟩
      have hd : Decodes env ctx c mg c1 creds :=
        ⟨data, ⟨pc, ⟨lm, ⟨h1, configRef, h2, h3⟩, h4⟩, h5⟩, h6⟩
      rw [builder_success env ctx c mg c1 creds hd hh]
  · intro c1 hd
    cases hh : env.HasError (env.Configure ctx (buildConfiguration GoMap.empty)).1 with
    | true =>
      rw [builder_configure_error env ctx c mg c1 GoMap.empty hd hh]
      exact ⟨rfl, by simp⟩
    | false =>
      rw [builder_success env ctx c mg c1 GoMap.empty hd hh]
      exact ⟨rfl, by simp [pipeline]⟩

/-- On the sample cluster, credentials that decode to the empty map reach
`Configure` with an empty, set Configuration. -/
theorem nil_error_iff_every_step_succeeds_witness :
    Decodes emptyEnv () [] sampleManaged ["flag-a"] GoMap.empty ∧
      (TerraformSetupBuilder emptyEnv () [] sampleManaged).ps.Configuration =
        some GoMap.empty ∧
      Call.Configure ∈ (TerraformSetupBuilder emptyEnv () [] sampleManaged).calls :=
  ⟨sample_decodes emptyData GoMap.empty,
    (nil_error_iff_every_step_succeeds emptyEnv () [] sampleManaged).2 ["flag-a"]
      (sample_decodes emptyData GoMap.empty)⟩

end Claims

end clients
